import Mathlib

/-!
Verification development for the communication-forensics pipeline in
`analysis.py`: record normalization (direction inference, timestamp
fallback windows, phone canonicalization), contact aggregation, timeline
fusion, the two-stage forensic classifier, and the risk/anomaly scorer.

Modelling conventions:
* Python strings are Lean `String`s; `str.lower()` is modelled by the
  ASCII lowering `lowerStr` (all data the pipeline compares is ASCII),
  and `str.strip()` by `pyStrip`.
* `datetime` values are seconds since the Unix epoch (a `Nat`);
  `.hour` is `ts / 3600 % 24` and `.weekday()` is `(ts / 86400 + 3) % 7`
  (1970-01-01 was a Thursday, Monday = 0).
* `np.random.*` draws are explicit parameters (the spec itself demands an
  injectable random source), with their ranges as hypotheses; note that
  `np.random.randint(a, b)` samples from `[a, b)`.
* Percentage thresholds such as `x / total * 100 > 20` are modelled by the
  exact integer comparison `100 * x > 20 * total`, which agrees with the
  source's float computation for every list size representable in memory.
* The single-quote character is written `apos` (`Char.ofNat 39`) when it
  occurs inside reason strings.
-/

/-- ASCII substring-prefix test: the first list is a prefix of the second. -/
def hasPre : List Char → List Char → Bool
  | [], _ => true
  | _ :: _, [] => false
  | c :: cs, d :: ds => c == d && hasPre cs ds

/-- Substring occurrence test over character lists (Python `needle in hay`). -/
def hasSub (n : List Char) : List Char → Bool
  | [] => hasPre n []
  | c :: cs => hasPre n (c :: cs) || hasSub n cs

/-- Python `kw in text` on strings. -/
def strContains (text kw : String) : Bool :=
  hasSub kw.data text.data

/-- ASCII lowering of one character, as Python `str.lower()` acts on ASCII. -/
def lowerChar (c : Char) : Char :=
  if c.isUpper then Char.ofNat (c.toNat + 32) else c

/-- Python `str.lower()` (ASCII fragment, which covers all pipeline data). -/
def lowerStr (s : String) : String :=
  String.mk (s.data.map lowerChar)

/-- Python whitespace as recognized by `str.strip()`:
space, tab, newline, carriage return, vertical tab, form feed. -/
def isPySpace (c : Char) : Bool :=
  c == Char.ofNat 32 || c == Char.ofNat 9 || c == Char.ofNat 10 ||
  c == Char.ofNat 13 || c == Char.ofNat 11 || c == Char.ofNat 12

/-- Python `str.strip()` on the character list. -/
def stripList (l : List Char) : List Char :=
  (l.dropWhile isPySpace).rdropWhile isPySpace

/-- Python `str.strip()`. -/
def pyStrip (s : String) : String :=
  String.mk (stripList s.data)

/-- The single-quote character, kept out of string literals. -/
def apos : String :=
  String.mk [Char.ofNat 39]

/-- Python slicing `s[:n]`. -/
def strTake (s : String) (n : Nat) : String :=
  String.mk (s.data.take n)

/-- Two-digit zero-padded rendering used by the `{hour:02d}` format. -/
def twoDigit (n : Nat) : String :=
  if n < 10 then "0" ++ toString n else toString n

/-!
A tiny backtracking matcher for the fixed phone-number regexes of
`extract_phone_number` (analysis.py lines 162-167).  Every pattern there is
a sequence of single-character classes, each mandatory or optional, once
the bounded repetitions are unfolded (`\d{1,3}` is `\d\d?\d?`, `\d{10,15}`
is ten mandatory digits followed by five optional ones).  `matchItems`
reproduces Python's greedy, backtracking semantics for such sequences, and
`searchRx` reproduces the leftmost-match rule of `re.search`.
-/

/-- One element of an unfolded pattern: a mandatory or optional character class. -/
inductive RxItem where
  | cls (p : Char → Bool)
  | opt (p : Char → Bool)

/-- Greedy backtracking match of an item sequence against a position:
returns the consumed characters and the rest, preferring to consume on
optional items (Python regex priority). -/
def matchItems : List RxItem → List Char → Option (List Char × List Char)
  | [], s => some ([], s)
  | RxItem.cls _ :: _, [] => none
  | RxItem.cls p :: its, c :: cs =>
    if p c then
      match matchItems its cs with
      | some (r, rest) => some (c :: r, rest)
      | none => none
    else none
  | RxItem.opt _ :: its, [] => matchItems its []
  | RxItem.opt p :: its, c :: cs =>
    if p c then
      match matchItems its cs with
      | some (r, rest) => some (c :: r, rest)
      | none => matchItems its (c :: cs)
    else matchItems its (c :: cs)

/-- mirror of `re.search`: try each start position from the left, return the
matched text of the first position that matches. -/
def searchRx (items : List RxItem) : List Char → Option (List Char)
  | [] => (matchItems items []).map Prod.fst
  | c :: cs =>
    match matchItems items (c :: cs) with
    | some (r, _) => some r
    | none => searchRx items cs

/-- The separator class `[-.\s]`. -/
def isRxSep (c : Char) : Bool :=
  c == Char.ofNat 45 || c == Char.ofNat 46 || isPySpace c

/-- A mandatory digit (`\d`). -/
def rxD : RxItem := RxItem.cls Char.isDigit

/-- An optional digit (`\d?`). -/
def rxDOpt : RxItem := RxItem.opt Char.isDigit

/-- An optional separator (`[-.\s]?`). -/
def rxSepOpt : RxItem := RxItem.opt isRxSep

/-- Pattern `\+?\d{1,3}[-.\s]?\(?\d{3}\)?[-.\s]?\d{3}[-.\s]?\d{4}`
(international format). -/
def phonePattern1 : List RxItem :=
  [RxItem.opt (· == '+'), rxD, rxDOpt, rxDOpt, rxSepOpt, RxItem.opt (· == '('),
   rxD, rxD, rxD, RxItem.opt (· == ')'), rxSepOpt, rxD, rxD, rxD, rxSepOpt,
   rxD, rxD, rxD, rxD]

/-- Pattern `\(?\d{3}\)?[-.\s]?\d{3}[-.\s]?\d{4}` (US format). -/
def phonePattern2 : List RxItem :=
  [RxItem.opt (· == '('), rxD, rxD, rxD, RxItem.opt (· == ')'), rxSepOpt,
   rxD, rxD, rxD, rxSepOpt, rxD, rxD, rxD, rxD]

/-- Pattern `\d{10,15}` (bare digit run). -/
def phonePattern3 : List RxItem :=
  [rxD, rxD, rxD, rxD, rxD, rxD, rxD, rxD, rxD, rxD,
   rxDOpt, rxDOpt, rxDOpt, rxDOpt, rxDOpt]

/-- Pattern `\d{3}[-.\s]?\d{3}[-.\s]?\d{4}`. -/
def phonePattern4 : List RxItem :=
  [rxD, rxD, rxD, rxSepOpt, rxD, rxD, rxD, rxSepOpt, rxD, rxD, rxD, rxD]

/-- The `for pattern in patterns: re.search(...)` loop: first pattern that
matches anywhere in the text wins. -/
def firstPhoneMatch (t : List Char) : Option (List Char) :=
  match searchRx phonePattern1 t with
  | some m => some m
  | none =>
    match searchRx phonePattern2 t with
    | some m => some m
    | none =>
      match searchRx phonePattern3 t with
      | some m => some m
      | none => searchRx phonePattern4 t

/-- `re.findall(r'\d+', text)` joined: all digits of the text in order. -/
def allDigits (t : List Char) : List Char :=
  t.filter Char.isDigit

/-- `extract_phone_number` (analysis.py lines 154-194).  `randPhone` stands
for the seeded random `+1XXXXXXXXXX` fallback the source draws when the
text is empty or yields no usable digits. -/
def extract_phone_number (text : String) (randPhone : String) : String :=
  if text == "" then randPhone
  else
    let t := pyStrip text
    match firstPhoneMatch t.data with
    | some m =>
      let number := String.mk (m.filter (fun c => c.isDigit || c == '+'))
      if number.length == 10 then "+1" ++ number
      else if number.length == 11 && strTake number 1 == "1" then "+" ++ number
      else if strTake number 1 == "+" then number
      else "+" ++ number
    | none =>
      let combined := String.mk (allDigits t.data)
      if 10 ≤ combined.length && combined.length ≤ 15 then
        "+1" ++ strTake combined 10
      else randPhone

/-!
Normalized records (the data model of `load_sms_data`, `load_call_data`,
`load_email_data`).  `intl_mins` is integral in the model; the classifier
only compares it against integer thresholds.
-/

/-- A normalized SMS record. -/
structure SMSRecord where
  id : String
  timestamp : Nat
  contact : String
  direction : String
  message : String
deriving Repr, DecidableEq

/-- The auxiliary call metrics read by the classifier. -/
structure CallDetails where
  intl_mins : Int
  churn : String
  custserv_calls : Int
deriving Repr, DecidableEq

/-- A normalized call record. -/
structure CallRecord where
  id : String
  timestamp : Nat
  contact : String
  duration : Int
  type : String
  call_details : CallDetails
deriving Repr, DecidableEq

/-- A normalized email record. -/
structure EmailRecord where
  id : String
  timestamp : Nat
  sender : String
  recipient : String
  subject : String
  body : String
deriving Repr, DecidableEq

/-- A record together with its source kind, as passed to the classifier. -/
inductive SourceRecord where
  | sms (r : SMSRecord)
  | call (r : CallRecord)
  | email (r : EmailRecord)
deriving Repr, DecidableEq

/-- The keyword set mapped to INCOMING by `load_sms_data` (line 117). -/
def incomingKeywords : List String :=
  ["incoming", "received", "in", "recv"]

/-- The keyword set mapped to OUTGOING by `load_sms_data` (line 119). -/
def outgoingKeywords : List String :=
  ["outgoing", "sent", "out", "send"]

/-- Substring match of any keyword against the lowercased value. -/
def matchesAnyKeyword (kws : List String) (d : String) : Bool :=
  kws.any (fun k => strContains (lowerStr d) k)

/-- The coin flip `'OUTGOING' if np.random.random() > 0.5 else 'INCOMING'`. -/
def randomDirection (coin : Bool) : String :=
  if coin then "OUTGOING" else "INCOMING"

/-- Direction inference of `load_sms_data` (lines 114-124).  `none` models a
missing column value and the empty string is falsy, exactly as in
`if direction:`; `coin` is the injected random draw. -/
def resolve_sms_direction (dval : Option String) (coin : Bool) : String :=
  match dval with
  | some d =>
    if d == "" then randomDirection coin
    else if matchesAnyKeyword incomingKeywords d then "INCOMING"
    else if matchesAnyKeyword outgoingKeywords d then "OUTGOING"
    else randomDirection coin
  | none => randomDirection coin

/-!
Timestamp fallback windows.  When `parse_timestamp` fails, each loader
synthesizes a timestamp from seeded draws; the definitions below give the
age (minutes before `datetime.now()`) of the synthesized timestamp as a
function of those draws, with the draw ranges of the `np.random.randint`
calls as validity predicates (`randint(a, b)` samples `[a, b)`).
-/

/-- SMS fallback (lines 95-99): `now - timedelta(days=d, hours=h, minutes=m)`. -/
def sms_fallback_age_minutes (d h m : Nat) : Nat :=
  d * 1440 + h * 60 + m

/-- SMS draw ranges: `randint(1, 90)`, `randint(0, 24)`, `randint(0, 60)`. -/
def sms_draw_valid (d h m : Nat) : Prop :=
  1 ≤ d ∧ d < 90 ∧ h < 24 ∧ m < 60

/-- Call fallback (lines 223-273): `now - 90 days + timedelta(days=d, hours=h, minutes=m)`. -/
def call_fallback_age_minutes (d h m : Nat) : Nat :=
  90 * 1440 - (d * 1440 + h * 60 + m)

/-- Call draw ranges: `randint(0, 90)`, `randint(0, 24)`, `randint(0, 60)`. -/
def call_draw_valid (d h m : Nat) : Prop :=
  d < 90 ∧ h < 24 ∧ m < 60

/-- Email fallback (lines 402-439): `now - 180 days + timedelta(days=d, hours=h)`. -/
def email_fallback_age_minutes (d h : Nat) : Nat :=
  180 * 1440 - (d * 1440 + h * 60)

/-- Email draw ranges: `randint(0, 180)`, `randint(0, 24)`. -/
def email_draw_valid (d h : Nat) : Prop :=
  d < 180 ∧ h < 24

/-!
The forensic classifier `categorize_event_with_reasons`
(analysis.py lines 828-951).
-/

/-- Hour of day of a timestamp (`datetime.hour`). -/
def hourOf (ts : Nat) : Nat :=
  ts / 3600 % 24

/-- Weekday of a timestamp (`datetime.weekday()`, Monday = 0). -/
def weekdayOf (ts : Nat) : Nat :=
  (ts / 86400 + 3) % 7

/-- The reason string `"<Category>: Contains '<keyword>'"`. -/
def mkKeywordReason (category keyword : String) : String :=
  category ++ ": Contains " ++ apos ++ keyword ++ apos

/-- The reason string `"Unusual pattern: Contains '<pattern>'"`. -/
def mkPatternReason (pattern : String) : String :=
  "Unusual pattern: Contains " ++ apos ++ pattern ++ apos

/-- The SMS `suspicious_keywords` table (lines 838-845), in source order. -/
def smsKeywordTable : List (String × List String) :=
  [("Financial", ["payment", "bank", "transfer", "money", "bitcoin", "crypto",
      "pay", "fund", "transaction", "cash", "deposit", "withdrawal"]),
   ("Suspicious", ["delete", "burner", "encrypt", "vpn", "tor", "secret",
      "confidential", "hide", "cover", "erase", "destroy"]),
   ("Urgent", ["urgent", "emergency", "asap", "immediately", "quick", "rush",
      "now", "stat"]),
   ("Coordination", ["meet", "location", "address", "time", "place", "venue",
      "coordinates", "where", "when", "parking"]),
   ("Spam", ["win", "free", "prize", "offer", "discount", "click", "link",
      "http", "www.", "congratulations", "selected"]),
   ("Threatening", ["threat", "danger", "warning", "alert", "risk",
      "dangerous", "careful"])]

/-- The email `email_red_flags` table (lines 870-876), in source order. -/
def emailKeywordTable : List (String × List String) :=
  [("Phishing", ["password", "login", "account", "verify", "security",
      "update", "confirm"]),
   ("Financial", ["invoice", "payment", "billing", "overdue", "refund",
      "charge", "fee"]),
   ("Suspicious", ["urgent", "action required", "immediately", "important",
      "attention"]),
   ("Spam", ["winner", "selected", "free", "offer", "discount",
      "limited time"]),
   ("Malicious", ["attachment", "download", "click here", "link",
      "update now"])]

/-- The `routine_keywords` table of the second pass (lines 940-944). -/
def routineKeywordTable : List (String × List String) :=
  [("BUSINESS", ["meeting", "project", "report", "deadline", "client",
      "customer", "business", "work"]),
   ("PERSONAL", ["love", "dear", "family", "friend", "happy", "birthday",
      "miss", "home", "dinner"]),
   ("ROUTINE", ["hello", "hi", "ok", "yes", "no", "thanks", "thank you",
      "please"])]

/-- The suspicious sender TLD list (line 890). -/
def suspiciousDomains : List String :=
  [".ru", ".cn", ".tk", ".ml", ".ga", ".cf", ".xyz"]

/-- The per-category keyword loop: for each category, the first keyword
occurring in the text contributes one reason and stops that category's
scan (the inner `break`). -/
def keywordReasons (table : List (String × List String)) (text : String) :
    List String :=
  table.filterMap (fun ck =>
    (ck.2.find? (fun kw => strContains text kw)).map
      (fun kw => mkKeywordReason ck.1 kw))

/-- True when the list starts with at least `n` digits. -/
def startsWithDigits : Nat → List Char → Bool
  | 0, _ => true
  | _ + 1, [] => false
  | n + 1, c :: cs => c.isDigit && startsWithDigits n cs

/-- An ASCII lowercase letter (`[a-z]`). -/
def isLowerAlpha (c : Char) : Bool :=
  Char.ofNat 97 ≤ c && c ≤ Char.ofNat 122

/-- After skipping a digit run, the next character is a lowercase letter. -/
def digitsThenLower : List Char → Bool
  | [] => false
  | c :: cs => if c.isDigit then digitsThenLower cs else isLowerAlpha c

/-- `re.search(r'\d{4,}', ...)` succeeds. -/
def hasDigitRun4 (l : List Char) : Bool :=
  l.tails.any (fun t => startsWithDigits 4 t)

/-- `re.search(r'[a-z]\d{3,}', ...)` succeeds. -/
def hasLowerThenDigits3 (l : List Char) : Bool :=
  l.tails.any (fun t =>
    match t with
    | [] => false
    | c :: cs => isLowerAlpha c && startsWithDigits 3 cs)

/-- `re.search(r'\d{3,}[a-z]', ...)` succeeds. -/
def hasDigits3ThenLower (l : List Char) : Bool :=
  l.tails.any (fun t => startsWithDigits 3 t && digitsThenLower (t.drop 3))

/-- The `unusual_patterns` loop (lines 858-862): only the first matching
pattern contributes a reason. -/
def unusualPatternReasons (message : String) : List String :=
  if hasDigitRun4 message.data then [mkPatternReason "\\d\x7b4,\x7d"]
  else if hasLowerThenDigits3 message.data then
    [mkPatternReason "[a-z]\\d\x7b3,\x7d"]
  else if hasDigits3ThenLower message.data then
    [mkPatternReason "\\d\x7b3,\x7d[a-z]"]
  else []

/-- All reasons collected for an SMS message (already lowercased). -/
def smsReasons (message : String) : List String :=
  keywordReasons smsKeywordTable message
    ++ (if message.length < 10 then
          ["Short message: Message length < 10 characters"] else [])
    ++ unusualPatternReasons message

/-- All reasons collected for an email record, with `content` the
lowercased `subject + ' ' + body`. -/
def emailReasons (r : EmailRecord) (content : String) : List String :=
  keywordReasons emailKeywordTable content
    ++ (if r.sender != "" &&
          (strContains (lowerStr r.sender) "anonymous" ||
           strContains (lowerStr r.sender) "noreply") then
          ["Anonymous sender"] else [])
    ++ (if suspiciousDomains.any (fun dm => strContains (lowerStr r.sender) dm)
        then ["Suspicious sender domain"] else [])

/-- The structural checks of the CALL branch (lines 894-920). -/
def callStructuralReasons (r : CallRecord) : List String :=
  (if r.duration ≤ 5 then ["Very short call (<5 seconds)"]
   else if r.duration > 3600 then ["Extended communication (>1 hour)"]
   else [])
    ++ (if r.call_details.intl_mins > 5 then
          ["International call (>5 minutes)"] else [])
    ++ (if r.call_details.churn == "TRUE" then ["Churn risk customer"] else [])
    ++ (if r.call_details.custserv_calls > 3 then
          ["Multiple customer service calls (" ++
            toString r.call_details.custserv_calls ++ ")"] else [])
    ++ (if hourOf r.timestamp ≤ 5 then
          ["Late night call (" ++ twoDigit (hourOf r.timestamp) ++ ":00)"]
        else [])

/-- The fixed priority cascade over collected reason texts (lines 923-937). -/
def cascadeTag (reasons : List String) : String :=
  if reasons.any (fun r => strContains r "Financial") then "FINANCIAL"
  else if reasons.any (fun r =>
      strContains r "Suspicious" || strContains r "Anonymous") then
    "SUSPICIOUS"
  else if reasons.any (fun r => strContains r "Urgent") then "URGENT"
  else if reasons.any (fun r => strContains r "International") then
    "INTERNATIONAL"
  else if reasons.any (fun r =>
      strContains r "Extended" || strContains (lowerStr r) "long") then
    "EXTENDED_COMM"
  else if reasons.any (fun r =>
      strContains r "Spam" || strContains r "Phishing") then "SPAM"
  else "SUSPICIOUS"

/-- The second, independent keyword pass over `routine_keywords`
(lines 939-951), run when no reasons were collected. -/
def routineSecondPass (content : String) : String × List String :=
  match routineKeywordTable.find? (fun ck =>
      ck.2.any (fun kw => strContains (lowerStr content) kw)) with
  | some ck => (ck.1, ["Routine communication"])
  | none => ("ROUTINE", ["Normal communication"])

/-- The common tail of the classifier: cascade if any reasons were
collected, otherwise the routine second pass over the searchable text. -/
def finishCategorize (content : String) (reasons : List String) :
    String × List String :=
  if reasons.isEmpty then routineSecondPass content
  else (cascadeTag reasons, reasons)

/-- `categorize_event_with_reasons` (lines 828-951).  In the CALL branch
the source computes `call_type = str(record.get('type', '')).lower()` but
never assigns it to `content`, so the searchable text of a call stays the
empty string initialized at line 830. -/
def categorize_event_with_reasons : SourceRecord → String × List String
  | SourceRecord.sms r =>
    let message := lowerStr r.message
    finishCategorize message (smsReasons message)
  | SourceRecord.email r =>
    let content := lowerStr r.subject ++ " " ++ lowerStr r.body
    finishCategorize content (emailReasons r content)
  | SourceRecord.call r =>
    finishCategorize "" (callStructuralReasons r)

/-!
Timeline fusion (`create_timeline`, analysis.py lines 953-1025).  The
`details` dict of an event is presentation-only side data consumed by no
verified stage and is omitted from the event model.
-/

/-- A fused timeline event. -/
structure TimelineEvent where
  id : String
  timestamp : Nat
  contact : String
  source : String
  type : String
  content : String
  forensic_tag : String
  reasons : List String
deriving Repr, DecidableEq

/-- The event built from an SMS record (lines 960-976). -/
def smsEvent (r : SMSRecord) : TimelineEvent :=
  let cr := categorize_event_with_reasons (SourceRecord.sms r)
  { id := r.id, timestamp := r.timestamp, contact := r.contact,
    source := "SMS", type := r.direction, content := strTake r.message 200,
    forensic_tag := cr.1, reasons := cr.2 }

/-- The event built from a call record (lines 978-996). -/
def callEvent (r : CallRecord) : TimelineEvent :=
  let cr := categorize_event_with_reasons (SourceRecord.call r)
  { id := r.id, timestamp := r.timestamp, contact := r.contact,
    source := "CALL", type := r.type,
    content := "Duration: " ++ toString r.duration ++ "s | Type: " ++ r.type,
    forensic_tag := cr.1, reasons := cr.2 }

/-- The event built from an email record (lines 998-1016). -/
def emailEvent (r : EmailRecord) : TimelineEvent :=
  let cr := categorize_event_with_reasons (SourceRecord.email r)
  { id := r.id, timestamp := r.timestamp, contact := r.sender,
    source := "EMAIL", type := "SENT",
    content := "To: " ++ r.recipient ++ " | Subject: " ++ strTake r.subject 100,
    forensic_tag := cr.1, reasons := cr.2 }

/-- The construction-order event list: all SMS events, then all call
events, then all email events, each in input row order. -/
def timelineEvents (sms : List SMSRecord) (calls : List CallRecord)
    (emails : List EmailRecord) : List TimelineEvent :=
  sms.map smsEvent ++ calls.map callEvent ++ emails.map emailEvent

/-- The sort key comparison of `timeline.sort(key=lambda x: x['timestamp'])`. -/
def tsLe (a b : TimelineEvent) : Prop :=
  a.timestamp ≤ b.timestamp

instance : DecidableRel tsLe :=
  fun a b => Nat.decLe a.timestamp b.timestamp

instance : IsTotal TimelineEvent tsLe :=
  ⟨fun a b => Nat.le_total a.timestamp b.timestamp⟩

instance : IsTrans TimelineEvent tsLe :=
  ⟨fun _ _ _ => Nat.le_trans⟩

/-- `create_timeline` (lines 953-1025): build the events in source order and
stable-sort by timestamp.  Python's `list.sort` is a stable sort, and a
stable sort's output is uniquely determined, so the stable `insertionSort`
models it exactly. -/
def create_timeline (sms : List SMSRecord) (calls : List CallRecord)
    (emails : List EmailRecord) : List TimelineEvent :=
  (timelineEvents sms calls emails).insertionSort tsLe

/-!
Contact aggregation (`extract_contacts`, analysis.py lines 705-759).
`contact_counts` is a `Counter` and `contact_details` a `defaultdict`;
both are modelled as association lists in first-insertion order, which is
`Counter`/`dict` iteration order.
-/

/-- The aggregate statistics held per contact.  Fields are `Option`-valued
because the source initializes each group of fields on first touch. -/
structure ContactInfo where
  sms_count : Option Nat := none
  last_contact : Option Nat := none
  call_count : Option Nat := none
  total_call_duration : Option Int := none
  last_call : Option Nat := none
  sent_email_count : Option Nat := none
  last_email_sent : Option Nat := none
  received_email_count : Option Nat := none
  last_email_received : Option Nat := none
deriving Repr, DecidableEq

/-- Counter lookup with default 0. -/
def getCount (m : List (String × Nat)) (k : String) : Nat :=
  (((m.find? (fun kv => kv.1 == k)).map Prod.snd).getD 0)

/-- `contact_counts[k] += 1`. -/
def bumpCount (m : List (String × Nat)) (k : String) : List (String × Nat) :=
  if (m.find? (fun kv => kv.1 == k)).isSome then
    m.map (fun kv => if kv.1 == k then (kv.1, kv.2 + 1) else kv)
  else m ++ [(k, 1)]

/-- `contact_details[k]` with defaultdict semantics (empty info if absent). -/
def getInfo (m : List (String × ContactInfo)) (k : String) : ContactInfo :=
  (((m.find? (fun kv => kv.1 == k)).map Prod.snd).getD {})

/-- Store back the (possibly fresh) entry of `k`. -/
def setInfo (m : List (String × ContactInfo)) (k : String) (v : ContactInfo) :
    List (String × ContactInfo) :=
  if (m.find? (fun kv => kv.1 == k)).isSome then
    m.map (fun kv => if kv.1 == k then (kv.1, v) else kv)
  else m ++ [(k, v)]

/-- The case-insensitive key blacklist of `extract_contacts`. -/
def contactBlacklist : List String :=
  ["unknown", "", "null", "none"]

/-- The guard `if contact and contact.lower() not in [...]`. -/
def contactAllowed (c : String) : Bool :=
  c != "" && !(contactBlacklist.contains (lowerStr c))

/-- The aggregation state: `(contact_counts, contact_details)`. -/
abbrev ContactState := List (String × Nat) × List (String × ContactInfo)

/-- The SMS loop body (lines 711-720).  When the entry is reached a second
time, `last_contact` is already set, so `getD 0` never fires on real data. -/
def smsContactStep (st : ContactState) (r : SMSRecord) : ContactState :=
  let contact := pyStrip r.contact
  if contactAllowed contact then
    let counts := bumpCount st.1 contact
    let info := getInfo st.2 contact
    let info :=
      if info.sms_count.isNone then
        { info with sms_count := some 0, last_contact := some r.timestamp }
      else info
    let info := { info with sms_count := some (info.sms_count.getD 0 + 1) }
    let info :=
      if r.timestamp > info.last_contact.getD 0 then
        { info with last_contact := some r.timestamp }
      else info
    (counts, setInfo st.2 contact info)
  else st

/-- The call loop body (lines 723-734). -/
def callContactStep (st : ContactState) (r : CallRecord) : ContactState :=
  let contact := pyStrip r.contact
  if contactAllowed contact then
    let counts := bumpCount st.1 contact
    let info := getInfo st.2 contact
    let info :=
      if info.call_count.isNone then
        { info with call_count := some 0, total_call_duration := some 0,
                    last_call := some r.timestamp }
      else info
    let info := { info with call_count := some (info.call_count.getD 0 + 1),
                            total_call_duration :=
                              some (info.total_call_duration.getD 0 + r.duration) }
    let info :=
      if r.timestamp > info.last_call.getD 0 then
        { info with last_call := some r.timestamp }
      else info
    (counts, setInfo st.2 contact info)
  else st

/-- The email loop body for the sender (lines 741-748). -/
def emailSenderStep (st : ContactState) (r : EmailRecord) : ContactState :=
  let sender := pyStrip r.sender
  if contactAllowed sender then
    let counts := bumpCount st.1 sender
    let info := getInfo st.2 sender
    let info :=
      if info.sent_email_count.isNone then
        { info with sent_email_count := some 0,
                    last_email_sent := some r.timestamp }
      else info
    let info :=
      { info with sent_email_count := some (info.sent_email_count.getD 0 + 1) }
    let info :=
      if r.timestamp > info.last_email_sent.getD 0 then
        { info with last_email_sent := some r.timestamp }
      else info
    (counts, setInfo st.2 sender info)
  else st

/-- The email loop body for the recipient (lines 750-757). -/
def emailRecipientStep (st : ContactState) (r : EmailRecord) : ContactState :=
  let recipient := pyStrip r.recipient
  if contactAllowed recipient then
    let counts := bumpCount st.1 recipient
    let info := getInfo st.2 recipient
    let info :=
      if info.received_email_count.isNone then
        { info with received_email_count := some 0,
                    last_email_received := some r.timestamp }
      else info
    let info :=
      { info with
        received_email_count := some (info.received_email_count.getD 0 + 1) }
    let info :=
      if r.timestamp > info.last_email_received.getD 0 then
        { info with last_email_received := some r.timestamp }
      else info
    (counts, setInfo st.2 recipient info)
  else st

/-- `extract_contacts` (lines 705-759): fold the three record lists over
the loop bodies, starting from empty maps. -/
def extract_contacts (sms : List SMSRecord) (calls : List CallRecord)
    (emails : List EmailRecord) : ContactState :=
  let st : ContactState := ([], [])
  let st := sms.foldl smsContactStep st
  let st := calls.foldl callContactStep st
  emails.foldl (fun st r => emailRecipientStep (emailSenderStep st r) r) st

/-!
The risk/anomaly scorer (`detect_suspicious_patterns_with_details`,
analysis.py lines 1136-1237).  Each flag constructor stands for the
`(label, explanation)` string pair appended by the corresponding check;
the numeric payload is the count interpolated into the label.
-/

/-- One detected risk flag. -/
inductive RiskFlag where
  | highLateNight (count : Nat)
  | rapidFire (count : Nat)
  | highUnknown (count : Nat)
  | financialComms (count : Nat)
  | suspiciousComms (count : Nat)
  | internationalComms (count : Nat)
  | extendedComms (count : Nat)
  | highWeekend (count : Nat)
  | singleContactConcentration (contact : String) (count : Nat)
  | lowBusinessHours (count : Nat)
deriving Repr, DecidableEq

/-- Number of events whose hour lies in `[0, 5]` (check #1's numerator). -/
def lateNightCount (timeline : List TimelineEvent) : Nat :=
  (timeline.filter (fun e => hourOf e.timestamp ≤ 5)).length

/-- The rapid-gap counter of check #2.  The source computes
`(t2 - t1).seconds`, the seconds *component* of the timedelta, which for a
non-negative difference is the difference modulo 86400 — not the total gap. -/
def adjacentRapidCount : List TimelineEvent → Nat
  | [] => 0
  | [_] => 0
  | a :: b :: rest =>
    (if (b.timestamp - a.timestamp) % 86400 < 30 then 1 else 0) +
      adjacentRapidCount (b :: rest)

/-- Occurrences of a contact in the timeline. -/
def countContact (timeline : List TimelineEvent) (c : String) : Nat :=
  (timeline.filter (fun e => e.contact == c)).length

/-- `Counter(...).most_common(1)`: the first-encountered contact with the
maximal count (later contacts replace the best only on a strictly larger
count). -/
def mostCommonContact (timeline : List TimelineEvent) :
    Option (String × Nat) :=
  timeline.foldl (fun acc e =>
    let c := countContact timeline e.contact
    match acc with
    | none => some (e.contact, c)
    | some (bc, bn) => if c > bn then some (e.contact, c) else some (bc, bn))
    none

/-- One conditional `flags.append(...)` of the scorer: the singleton flag
when the check fires, nothing otherwise. -/
def checkFlag (c : Prop) [Decidable c] (f : RiskFlag) : List RiskFlag :=
  if c then [f] else []

/-- Check #9 (lines 1217-1225): concentration on the single most frequent
contact. -/
def singleContactFlag (sorted : List TimelineEvent) (total : Nat) :
    List RiskFlag :=
  match mostCommonContact sorted with
  | some (tc, tn) =>
    checkFlag (10 * tn > 3 * total) (RiskFlag.singleContactConcentration tc tn)
  | none => []

/-- Check #10 (lines 1227-1235): low business-hours activity, only when the
subject's phone is known. -/
def businessHoursFlag (sorted : List TimelineEvent) (total : Nat)
    (user_phone : Option String) : List RiskFlag :=
  match user_phone with
  | some _ =>
    let bh := (sorted.filter (fun e =>
      9 ≤ hourOf e.timestamp && hourOf e.timestamp ≤ 17)).length
    checkFlag (100 * bh < 20 * total) (RiskFlag.lowBusinessHours bh)
  | none => []

/-- `detect_suspicious_patterns_with_details` (lines 1136-1237).  Check #1
runs before the in-place re-sort of the timeline; checks #2-#10 run after
it (their counts are order-invariant, but `most_common` tie-breaking
follows the sorted order).  Thresholds are the exact forms of the source's
float comparisons. -/
def detect_suspicious_patterns_with_details (timeline : List TimelineEvent)
    (user_phone : Option String) : List RiskFlag :=
  if timeline.length < 10 then []
  else
    let total := timeline.length
    let lateNight := lateNightCount timeline
    let sorted := timeline.insertionSort tsLe
    let rapid := adjacentRapidCount sorted
    let unknownCt := (sorted.filter
      (fun e => strContains (lowerStr e.contact) "unknown")).length
    let fin := (sorted.filter (fun e => e.forensic_tag == "FINANCIAL")).length
    let susp := (sorted.filter (fun e => e.forensic_tag == "SUSPICIOUS")).length
    let intl := (sorted.filter
      (fun e => e.forensic_tag == "INTERNATIONAL")).length
    let ext := (sorted.filter
      (fun e => e.forensic_tag == "EXTENDED_COMM")).length
    let wk := (sorted.filter (fun e => 5 ≤ weekdayOf e.timestamp)).length
    let flags :=
      checkFlag (100 * lateNight > 20 * total) (RiskFlag.highLateNight lateNight)
      ++ checkFlag (20 * rapid > total) (RiskFlag.rapidFire rapid)
      ++ checkFlag (10 * unknownCt > total) (RiskFlag.highUnknown unknownCt)
      ++ checkFlag (fin > 10) (RiskFlag.financialComms fin)
      ++ checkFlag (susp > 5) (RiskFlag.suspiciousComms susp)
      ++ checkFlag (intl > 3) (RiskFlag.internationalComms intl)
      ++ checkFlag (ext > 2) (RiskFlag.extendedComms ext)
      ++ checkFlag (100 * wk > 40 * total) (RiskFlag.highWeekend wk)
      ++ singleContactFlag sorted total
      ++ businessHoursFlag sorted total user_phone
    flags.take 10

/-- The simple composite score `min(len(flags) * 10, 100)`
(analysis.py lines 1124 and 2054). -/
def simple_risk_score (flags : List RiskFlag) : Nat :=
  min (flags.length * 10) 100

/-- Recognizer for the late-night flag (check #1). -/
def isLateNightFlag : RiskFlag → Bool
  | RiskFlag.highLateNight _ => true
  | _ => false

/-- Recognizer for the rapid-fire flag (check #2). -/
def isRapidFireFlag : RiskFlag → Bool
  | RiskFlag.rapidFire _ => true
  | _ => false

/-!
Concrete inputs used by witnesses and counterexamples.
-/

/-- The SMS record of the spec's classifier-determinism test. -/
def c1_record : SMSRecord :=
  { id := "SMS_000001", timestamp := 1700000000, contact := "+15551234567",
    direction := "INCOMING",
    message := "Please wire the payment via bitcoin now" }

/-- A call record with no structural findings whose call type contains the
routine keyword `business`. -/
def c9_call_record : CallRecord :=
  { id := "CALL_000001", timestamp := 12 * 3600, contact := "+15551230000",
    duration := 100, type := "BUSINESS",
    call_details := { intl_mins := 0, churn := "FALSE", custserv_calls := 0 } }

/-- A neutral timeline event at a given timestamp. -/
def plainEvent (i ts : Nat) (contact : String) : TimelineEvent :=
  { id := toString i, timestamp := ts, contact := contact, source := "SMS",
    type := "INCOMING", content := "x", forensic_tag := "ROUTINE",
    reasons := [] }

/-- Five events, two of them (40%) in the late-night hours `[0, 5]`. -/
def lateSmallTimeline : List TimelineEvent :=
  [plainEvent 1 0 "a", plainEvent 2 3600 "b", plainEvent 3 30000 "c",
   plainEvent 4 40000 "d", plainEvent 5 50000 "e"]

/-- Ten events, three of them (30%) in the late-night hours `[0, 5]`. -/
def lateWitnessTimeline : List TimelineEvent :=
  [plainEvent 1 0 "a", plainEvent 2 3600 "b", plainEvent 3 7200 "c",
   plainEvent 4 30000 "d", plainEvent 5 40000 "e", plainEvent 6 50000 "f",
   plainEvent 7 60000 "g", plainEvent 8 70000 "h", plainEvent 9 80000 "i",
   plainEvent 10 82000 "j"]

/-- Eleven noon events spaced exactly one day apart: every true adjacent
gap is 86400 seconds. -/
def rapidFailTimeline : List TimelineEvent :=
  (List.range 11).map (fun k => plainEvent k (43200 + k * 86400) (toString k))

/-- Four events, all in the late-night hours: under the claimed check table
alone, flag #1's condition holds (100% > 20%). -/
def c10SmallTimeline : List TimelineEvent :=
  [plainEvent 1 0 "a", plainEvent 2 3600 "a", plainEvent 3 7200 "a",
   plainEvent 4 10800 "a"]

/-- A one-record SMS input for the aggregator witness. -/
def c6_sms_records : List SMSRecord :=
  [{ id := "SMS_000001", timestamp := 5, contact := " +15551234567 ",
     direction := "INCOMING", message := "hi" }]

/-- The true adjacent timestamp gaps of a timeline, in seconds. -/
def adjacentGaps (tl : List TimelineEvent) : List Nat :=
  (tl.zip tl.tail).map (fun p => p.2.timestamp - p.1.timestamp)

/-- An aggregate-map key as inserted by `extract_contacts`: it passed the
guard and is already stripped. -/
def goodKey (k : String) : Prop :=
  contactAllowed k = true ∧ pyStrip k = k

/-- Every key of both aggregate maps is a `goodKey`. -/
def goodState (st : ContactState) : Prop :=
  (∀ k ∈ st.1.map Prod.fst, goodKey k) ∧ (∀ k ∈ st.2.map Prod.fst, goodKey k)

/-!
Helper lemmas.
-/

/-- Python `strip` is idempotent (character-list form). -/
theorem stripList_idem (l : List Char) : stripList (stripList l) = stripList l := by
  unfold stripList
  generalize hm : l.dropWhile isPySpace = m
  have hmfix : m.dropWhile isPySpace = m := by
    rw [← hm]; exact List.dropWhile_idempotent _ _
  rcases hr : m.rdropWhile isPySpace with _ | ⟨c, cs⟩
  · simp [List.rdropWhile_nil]
  · have hpre : m.rdropWhile isPySpace <+: m := List.rdropWhile_prefix _ _
    rw [hr] at hpre
    obtain ⟨t, ht⟩ := hpre
    have hc : isPySpace c = false := by
      by_contra hcc
      rw [Bool.not_eq_false] at hcc
      have h2 := hmfix
      rw [← ht] at h2
      simp only [List.cons_append, List.dropWhile_cons, hcc, if_true] at h2
      have hlen := congrArg List.length h2
      have hle :=
        ((List.dropWhile_suffix (l := cs ++ t) isPySpace).sublist).length_le
      simp only [List.length_cons, List.length_append] at hlen hle
      omega
    rw [List.dropWhile_cons, hc]
    simp only [Bool.false_eq_true, if_false]
    rw [← hr, List.rdropWhile_idempotent]

/-- Python `strip` is idempotent. -/
theorem pyStrip_idem (s : String) : pyStrip (pyStrip s) = pyStrip s := by
  show String.mk (stripList (stripList s.data)) = String.mk (stripList s.data)
  exact congrArg String.mk (stripList_idem s.data)

/-- Inserting into the sorted-by-timestamp order either prepends the new
event to the slice with its timestamp or leaves other slices unchanged. -/
theorem filter_ts_orderedInsert (t : Nat) (a : TimelineEvent)
    (l : List TimelineEvent) :
    (List.orderedInsert tsLe a l).filter (fun e => e.timestamp == t)
      = if a.timestamp = t then
          a :: l.filter (fun e => e.timestamp == t)
        else l.filter (fun e => e.timestamp == t) := by
  induction l with
  | nil =>
    by_cases hat : a.timestamp = t <;>
      simp [List.orderedInsert, List.filter_cons, beq_iff_eq, hat]
  | cons b l ih =>
    simp only [List.orderedInsert]
    by_cases hab : tsLe a b
    · rw [if_pos hab]
      by_cases hat : a.timestamp = t <;> by_cases hbt : b.timestamp = t <;>
        simp [List.filter_cons, hat, hbt]
    · rw [if_neg hab]
      have hba : b.timestamp < a.timestamp := by
        unfold tsLe at hab; omega
      by_cases hat : a.timestamp = t
      · have hbt : ¬ b.timestamp = t := by omega
        simp [List.filter_cons, hbt, ih, hat]
      · by_cases hbt : b.timestamp = t <;>
          simp [List.filter_cons, hbt, ih, hat]

/-- The stable sort leaves each equal-timestamp slice in input order. -/
theorem filter_ts_insertionSort (t : Nat) (l : List TimelineEvent) :
    (l.insertionSort tsLe).filter (fun e => e.timestamp == t)
      = l.filter (fun e => e.timestamp == t) := by
  induction l with
  | nil => rfl
  | cons a l ih =>
    show (List.orderedInsert tsLe a (l.insertionSort tsLe)).filter _ = _
    rw [filter_ts_orderedInsert]
    by_cases hat : a.timestamp = t <;> simp [List.filter_cons, hat, ih]

/-- Mapping an update that keeps every key leaves the key list unchanged. -/
theorem keys_map_update {α : Type} (m : List (String × α))
    (fn : String × α → String × α) (hfn : ∀ kv, (fn kv).1 = kv.1) :
    (m.map fn).map Prod.fst = m.map Prod.fst := by
  rw [List.map_map]
  exact List.map_congr_left (fun kv _ => hfn kv)

/-- A key of the bumped counter is an old key or the bumped one. -/
theorem mem_keys_bumpCount {m : List (String × Nat)} {k0 k : String}
    (h : k ∈ (bumpCount m k0).map Prod.fst) : k ∈ m.map Prod.fst ∨ k = k0 := by
  unfold bumpCount at h
  split at h
  · rw [keys_map_update] at h
    · exact Or.inl h
    · intro kv; split <;> rfl
  · rw [List.map_append] at h
    rcases List.mem_append.1 h with h | h
    · exact Or.inl h
    · simp at h; exact Or.inr h

/-- A key of the updated details map is an old key or the updated one. -/
theorem mem_keys_setInfo {m : List (String × ContactInfo)} {k0 k : String}
    {v : ContactInfo} (h : k ∈ (setInfo m k0 v).map Prod.fst) :
    k ∈ m.map Prod.fst ∨ k = k0 := by
  unfold setInfo at h
  split at h
  · rw [keys_map_update] at h
    · exact Or.inl h
    · intro kv; split <;> rfl
  · rw [List.map_append] at h
    rcases List.mem_append.1 h with h | h
    · exact Or.inl h
    · simp at h; exact Or.inr h

/-- A guarded insertion of a stripped contact keeps the key invariant. -/
theorem goodState_insert (st : ContactState) (raw : String)
    (info : ContactInfo) (hg : goodState st)
    (hc : contactAllowed (pyStrip raw) = true) :
    goodState (bumpCount st.1 (pyStrip raw), setInfo st.2 (pyStrip raw) info) := by
  constructor
  · intro k hk
    rcases mem_keys_bumpCount hk with h | rfl
    · exact hg.1 k h
    · exact ⟨hc, pyStrip_idem raw⟩
  · intro k hk
    rcases mem_keys_setInfo hk with h | rfl
    · exact hg.2 k h
    · exact ⟨hc, pyStrip_idem raw⟩

/-- The SMS loop body keeps the key invariant. -/
theorem goodState_smsStep (st : ContactState) (r : SMSRecord)
    (hg : goodState st) : goodState (smsContactStep st r) := by
  unfold smsContactStep
  dsimp only
  by_cases hc : contactAllowed (pyStrip r.contact) = true
  · rw [if_pos hc]
    exact goodState_insert st r.contact _ hg hc
  · rw [if_neg hc]
    exact hg

/-- The call loop body keeps the key invariant. -/
theorem goodState_callStep (st : ContactState) (r : CallRecord)
    (hg : goodState st) : goodState (callContactStep st r) := by
  unfold callContactStep
  dsimp only
  by_cases hc : contactAllowed (pyStrip r.contact) = true
  · rw [if_pos hc]
    exact goodState_insert st r.contact _ hg hc
  · rw [if_neg hc]
    exact hg

/-- The email sender loop body keeps the key invariant. -/
theorem goodState_emailSenderStep (st : ContactState) (r : EmailRecord)
    (hg : goodState st) : goodState (emailSenderStep st r) := by
  unfold emailSenderStep
  dsimp only
  by_cases hc : contactAllowed (pyStrip r.sender) = true
  · rw [if_pos hc]
    exact goodState_insert st r.sender _ hg hc
  · rw [if_neg hc]
    exact hg

/-- The email recipient loop body keeps the key invariant. -/
theorem goodState_emailRecipientStep (st : ContactState) (r : EmailRecord)
    (hg : goodState st) : goodState (emailRecipientStep st r) := by
  unfold emailRecipientStep
  dsimp only
  by_cases hc : contactAllowed (pyStrip r.recipient) = true
  · rw [if_pos hc]
    exact goodState_insert st r.recipient _ hg hc
  · rw [if_neg hc]
    exact hg

/-- Folding invariant-preserving steps preserves the invariant. -/
theorem goodState_foldl {β : Type} (step : ContactState → β → ContactState)
    (hstep : ∀ st b, goodState st → goodState (step st b)) :
    ∀ (l : List β) (st : ContactState), goodState st →
      goodState (l.foldl step st)
  | [], _, hg => hg
  | b :: l, st, hg =>
    goodState_foldl step hstep l (step st b) (hstep st b hg)

/-- A fired check contributes its singleton. -/
theorem checkFlag_pos {c : Prop} [Decidable c] (h : c) (f : RiskFlag) :
    checkFlag c f = [f] := by
  unfold checkFlag; exact if_pos h

/-- A check that does not fire contributes nothing. -/
theorem checkFlag_neg {c : Prop} [Decidable c] (h : ¬c) (f : RiskFlag) :
    checkFlag c f = [] := by
  unfold checkFlag; exact if_neg h

/-- The only possible member of a check's contribution is its flag. -/
theorem mem_checkFlag {c : Prop} [Decidable c] {f x : RiskFlag}
    (h : x ∈ checkFlag c f) : x = f := by
  unfold checkFlag at h
  split at h
  · simpa using h
  · simp at h

/-- Check #9 never contributes the late-night flag. -/
theorem mem_singleContactFlag_notLateNight {s : List TimelineEvent} {t : Nat}
    {x : RiskFlag} (h : x ∈ singleContactFlag s t) :
    isLateNightFlag x = false := by
  unfold singleContactFlag at h
  rcases hmc : mostCommonContact s with _ | ⟨tc, tn⟩ <;> rw [hmc] at h
  · simp at h
  · rw [mem_checkFlag h]; rfl

/-- Check #10 never contributes the late-night flag. -/
theorem mem_businessHoursFlag_notLateNight {s : List TimelineEvent} {t : Nat}
    {u : Option String} {x : RiskFlag} (h : x ∈ businessHoursFlag s t u) :
    isLateNightFlag x = false := by
  unfold businessHoursFlag at h
  rcases u with _ | up
  · simp at h
  · rw [mem_checkFlag h]; rfl

/-- A call record whose structural checks all fail is classified by the
second pass over the empty searchable text, hence always ROUTINE. -/
theorem reasonless_call_is_routine (r : CallRecord)
    (h : callStructuralReasons r = []) :
    categorize_event_with_reasons (SourceRecord.call r)
      = ("ROUTINE", ["Normal communication"]) := by
  show finishCategorize "" (callStructuralReasons r)
    = ("ROUTINE", ["Normal communication"])
  rw [h]
  rfl

/-!
The claims.
-/

/-- C1: classifying the SMS message "Please wire the payment via bitcoin
now" yields exactly one Financial reason, namely
`mkKeywordReason "Financial" "payment"`, which renders the string
"Financial: Contains 'payment'" — the first Financial keyword found, after
which that category's scan stops.  The reasons also contain the Urgent
reason for the keyword "now", and the priority cascade settles the tag as
FINANCIAL. -/
theorem C1_sms_financial_classification :
    (categorize_event_with_reasons (SourceRecord.sms c1_record)).1
      = "FINANCIAL" ∧
    ((categorize_event_with_reasons (SourceRecord.sms c1_record)).2).filter
        (fun r => strContains r "Financial")
      = [mkKeywordReason "Financial" "payment"] ∧
    mkKeywordReason "Urgent" "now"
      ∈ (categorize_event_with_reasons (SourceRecord.sms c1_record)).2 := by
  decide

/-- C2: for every triple of record lists, the fused timeline is a
permutation of the constructed events, sorted ascending by timestamp, and
every equal-timestamp slice keeps the construction order (SMS before CALL
before EMAIL, input row order within a source). -/
theorem C2_timeline_sorted_stable (sms : List SMSRecord)
    (calls : List CallRecord) (emails : List EmailRecord) :
    (create_timeline sms calls emails).Perm (timelineEvents sms calls emails)
    ∧ (create_timeline sms calls emails).Sorted tsLe
    ∧ ∀ t : Nat,
        (create_timeline sms calls emails).filter (fun e => e.timestamp == t)
          = (timelineEvents sms calls emails).filter
              (fun e => e.timestamp == t) :=
  ⟨List.perm_insertionSort tsLe _, List.sorted_insertionSort tsLe _,
   fun t => filter_ts_insertionSort t _⟩

/-- C3 counterexample: the direction value "Outgoing" is assigned INCOMING
(for either random draw), not OUTGOING as the claim states, because the
INCOMING check runs first and "outgoing" contains the substring "in". -/
theorem C3_counterexample :
    resolve_sms_direction (some "Outgoing") true = "INCOMING" ∧
    resolve_sms_direction (some "Outgoing") false = "INCOMING" := by
  decide

/-- C3 amended: a nonempty direction value matching an INCOMING keyword is
INCOMING; one matching an OUTGOING keyword and no INCOMING keyword is
OUTGOING; one matching neither is assigned by the random draw. -/
theorem C3_amended (d : String) (coin : Bool) (hne : (d == "") = false) :
    (matchesAnyKeyword incomingKeywords d = true →
       resolve_sms_direction (some d) coin = "INCOMING") ∧
    (matchesAnyKeyword incomingKeywords d = false →
       matchesAnyKeyword outgoingKeywords d = true →
       resolve_sms_direction (some d) coin = "OUTGOING") ∧
    (matchesAnyKeyword incomingKeywords d = false →
       matchesAnyKeyword outgoingKeywords d = false →
       resolve_sms_direction (some d) coin = randomDirection coin) := by
  unfold resolve_sms_direction
  refine ⟨fun h1 => ?_, fun h1 h2 => ?_, fun h1 h2 => ?_⟩ <;> simp [hne, *]

/-- C3 witness: the value "sent" matches no INCOMING keyword, matches an
OUTGOING keyword, and is assigned OUTGOING. -/
theorem C3_amended_witness :
    resolve_sms_direction (some "sent") true = "OUTGOING" :=
  (C3_amended "sent" true (by decide)).2.1 (by decide) (by decide)

/-- C4 counterexample: an instant exactly 100 days in the past — well
inside the claimed 180-day SMS window — is not a possible SMS fallback
timestamp: the SMS draws reach at most 89 days, 23 hours and 59 minutes. -/
theorem C4_counterexample :
    ¬ ∃ d h m : Nat, sms_draw_valid d h m ∧
        sms_fallback_age_minutes d h m = 100 * 1440 := by
  rintro ⟨d, h, m, ⟨h1, h2, h3, h4⟩, he⟩
  unfold sms_fallback_age_minutes at he
  omega

/-- C4 amended: every synthesized fallback timestamp is strictly in the
past and lies inside a 90-day window for SMS and CALL records and a
180-day window for EMAIL records (the SMS window is 90 days, not 180). -/
theorem C4_amended (d1 h1 m1 d2 h2 m2 d3 h3 : Nat)
    (hs : sms_draw_valid d1 h1 m1) (hc : call_draw_valid d2 h2 m2)
    (he : email_draw_valid d3 h3) :
    (0 < sms_fallback_age_minutes d1 h1 m1 ∧
       sms_fallback_age_minutes d1 h1 m1 < 90 * 1440) ∧
    (0 < call_fallback_age_minutes d2 h2 m2 ∧
       call_fallback_age_minutes d2 h2 m2 ≤ 90 * 1440) ∧
    (0 < email_fallback_age_minutes d3 h3 ∧
       email_fallback_age_minutes d3 h3 ≤ 180 * 1440) := by
  obtain ⟨a1, a2, a3, a4⟩ := hs
  obtain ⟨b1, b2, b3⟩ := hc
  obtain ⟨e1, e2⟩ := he
  unfold sms_fallback_age_minutes call_fallback_age_minutes
    email_fallback_age_minutes
  refine ⟨⟨by omega, by omega⟩, ⟨by omega, by omega⟩, by omega, by omega⟩

/-- C4 witness: concrete draws for each source land inside the windows. -/
theorem C4_amended_witness :
    (0 < sms_fallback_age_minutes 5 3 20 ∧
       sms_fallback_age_minutes 5 3 20 < 90 * 1440) ∧
    (0 < call_fallback_age_minutes 10 2 5 ∧
       call_fallback_age_minutes 10 2 5 ≤ 90 * 1440) ∧
    (0 < email_fallback_age_minutes 40 7 ∧
       email_fallback_age_minutes 40 7 ≤ 180 * 1440) :=
  C4_amended 5 3 20 10 2 5 40 7 (by unfold sms_draw_valid; omega)
    (by unfold call_draw_valid; omega) (by unfold email_draw_valid; omega)

/-- C5: the input "(555) 123-4567" canonicalizes to "+15551234567" via the
10-digit rule, and "441234567890" to "+441234567890" via the final
plus-prefix rule, whatever the injected random fallback number. -/
theorem C5_phone_canonicalization (rp : String) :
    extract_phone_number "(555) 123-4567" rp = "+15551234567" ∧
    extract_phone_number "441234567890" rp = "+441234567890" :=
  ⟨rfl, rfl⟩

/-- C6: every key of either aggregate contact map is, after trimming and
lowercasing, outside the blacklist of empty, unknown, null and none. -/
theorem C6_aggregate_keys_not_blacklisted (sms : List SMSRecord)
    (calls : List CallRecord) (emails : List EmailRecord) (k : String)
    (hk : k ∈ (extract_contacts sms calls emails).1.map Prod.fst ∨
          k ∈ (extract_contacts sms calls emails).2.map Prod.fst) :
    contactBlacklist.contains (lowerStr (pyStrip k)) = false := by
  have hgood : goodState (extract_contacts sms calls emails) := by
    unfold extract_contacts
    dsimp only
    apply goodState_foldl _
      (fun st r hg =>
        goodState_emailRecipientStep _ r (goodState_emailSenderStep _ r hg))
    apply goodState_foldl _ goodState_callStep
    apply goodState_foldl _ goodState_smsStep
    exact ⟨fun k hk => by simp at hk, fun k hk => by simp at hk⟩
  have hgk : goodKey k := hk.elim (hgood.1 k) (hgood.2 k)
  obtain ⟨hall, hfix⟩ := hgk
  rw [hfix]
  unfold contactAllowed at hall
  rw [Bool.and_eq_true] at hall
  have h2 := hall.2
  rw [Bool.not_eq_eq_eq_not] at h2
  exact h2

/-- C6 witness: the key produced by one SMS record is not blacklisted. -/
theorem C6_witness :
    contactBlacklist.contains (lowerStr (pyStrip "+15551234567")) = false :=
  C6_aggregate_keys_not_blacklisted c6_sms_records [] [] "+15551234567"
    (Or.inl (by decide))

/-- C7 counterexample: a five-event timeline with 40 percent late-night
events — strictly above the 20 percent threshold — raises no late-night
flag, because the scorer returns nothing for fewer than ten events. -/
theorem C7_counterexample :
    100 * lateNightCount lateSmallTimeline > 20 * lateSmallTimeline.length ∧
    (detect_suspicious_patterns_with_details lateSmallTimeline none).any
        isLateNightFlag = false := by
  decide

/-- C7 amended: for a timeline of at least ten events, the late-night flag
is raised exactly when strictly more than 20 percent of the events fall in
hours 0 through 5. -/
theorem C7_amended (tl : List TimelineEvent) (u : Option String)
    (h : 10 ≤ tl.length) :
    ((detect_suspicious_patterns_with_details tl u).any isLateNightFlag
        = true)
      ↔ 100 * lateNightCount tl > 20 * tl.length := by
  unfold detect_suspicious_patterns_with_details
  rw [if_neg (by omega)]
  dsimp only
  by_cases hc : 100 * lateNightCount tl > 20 * tl.length
  · refine ⟨fun _ => hc, fun _ => ?_⟩
    rw [checkFlag_pos hc]
    simp [List.take_succ_cons, isLateNightFlag]
  · rw [checkFlag_neg hc, List.nil_append]
    constructor
    · intro hany
      exfalso
      rw [List.any_eq_true] at hany
      obtain ⟨x, hx, hpx⟩ := hany
      have hx2 := List.mem_of_mem_take hx
      simp only [List.mem_append] at hx2
      rcases hx2 with
        ((((((((h2 | h3) | h4) | h5) | h6) | h7) | h8) | h9) | h10)
      · rw [mem_checkFlag h2] at hpx; simp [isLateNightFlag] at hpx
      · rw [mem_checkFlag h3] at hpx; simp [isLateNightFlag] at hpx
      · rw [mem_checkFlag h4] at hpx; simp [isLateNightFlag] at hpx
      · rw [mem_checkFlag h5] at hpx; simp [isLateNightFlag] at hpx
      · rw [mem_checkFlag h6] at hpx; simp [isLateNightFlag] at hpx
      · rw [mem_checkFlag h7] at hpx; simp [isLateNightFlag] at hpx
      · rw [mem_checkFlag h8] at hpx; simp [isLateNightFlag] at hpx
      · rw [mem_singleContactFlag_notLateNight h9] at hpx; simp at hpx
      · rw [mem_businessHoursFlag_notLateNight h10] at hpx; simp at hpx
    · intro hcc
      exact absurd hcc hc

/-- C7 witness: a ten-event timeline with 30 percent late-night events
raises the late-night flag. -/
theorem C7_amended_witness :
    (detect_suspicious_patterns_with_details lateWitnessTimeline none).any
        isLateNightFlag = true :=
  (C7_amended lateWitnessTimeline none (by decide)).mpr (by decide)

/-- C8: on eleven noon events spaced exactly one day apart — every true
adjacent gap is 86400 seconds, far above 30 — the scorer still raises the
rapid-fire flag with all ten gaps counted as rapid, because the source
reads `timedelta.seconds`, the gap modulo 24 hours. -/
theorem C8_code_eval :
    adjacentGaps rapidFailTimeline = List.replicate 10 86400 ∧
    detect_suspicious_patterns_with_details rapidFailTimeline none
      = [RiskFlag.rapidFire 10] := by
  constructor
  · decide
  · decide

/-- C9: on a call record with no structural findings and call type
"BUSINESS", the classifier returns ROUTINE with "Normal communication",
while the routine second pass applied to the lowercase call-type string —
as the claim describes — would return BUSINESS: the searchable text of a
call is the empty string, not the call-type string. -/
theorem C9_code_eval :
    categorize_event_with_reasons (SourceRecord.call c9_call_record)
      = ("ROUTINE", ["Normal communication"]) ∧
    routineSecondPass (lowerStr c9_call_record.type)
      = ("BUSINESS", ["Routine communication"]) := by
  decide

/-- C10: a timeline of fewer than ten events yields an empty flag list and
a simple composite risk score of zero, whatever the check conditions. -/
theorem C10_small_timeline_no_flags (tl : List TimelineEvent)
    (u : Option String) (h : tl.length < 10) :
    detect_suspicious_patterns_with_details tl u = [] ∧
    simple_risk_score (detect_suspicious_patterns_with_details tl u) = 0 := by
  have hd : detect_suspicious_patterns_with_details tl u = [] := by
    unfold detect_suspicious_patterns_with_details
    rw [if_pos h]
  exact ⟨hd, by rw [hd]; rfl⟩

/-- C10 witness: four events, all late-night, yield no flags and score 0. -/
theorem C10_witness :
    detect_suspicious_patterns_with_details c10SmallTimeline none = [] ∧
    simple_risk_score
        (detect_suspicious_patterns_with_details c10SmallTimeline none) = 0 :=
  C10_small_timeline_no_flags c10SmallTimeline none (by decide)
